import Mathlib

/-!
Verification of `src/utils_9_11/elastic_solver.py` (repository Luhenmo/Rupture).

The file contains two driver functions, `solve_elasticity_devoir` and
`solve_elasticity_devoir_force`, that configure and invoke an external
finite-element framework (dolfinx / ufl / petsc) on a 2D cracked specimen.
All numerical work is delegated to the external libraries; the Python code is
parameter plumbing.  We embed it shallowly:

* scalar parameters (Python floats) are modelled as exact rationals `ℚ`
  (nothing in the claims depends on floating-point rounding);
* the symbolic weak-form layer (ufl) is modelled by an expression AST `Ufl`;
* each driver is modelled by the ordered list of external-library calls it
  issues (`Call`), transcribed line by line from the source, and by the
  symbolic result triple it returns (`SimResult`);
* `np.isclose(x, c)` boundary tests are modelled as exact equality `x = c`;
* pure ufl algebra (`ufl.inner`, `ufl.dot`, `ufl.sym`, `ufl.grad`, arithmetic
  on expressions) builds AST nodes and is not traced as a call; the
  `fem.Constant` objects created inside `L(v)` appear as `constVec` AST leaves
  of the linear form.
-/

/-- Keyword parameters shared by the two driver functions
(`solve_elasticity_devoir`, lines 22-34, and `solve_elasticity_devoir_force`,
lines 122-135 of `elastic_solver.py`).  `refinement` models the Python
parameter named `refinement_ratio`. -/
structure Params where
  nu : ℚ
  E : ℚ
  load : ℚ
  Lx : ℚ
  Ly : ℚ
  Lcrack : ℚ
  lc : ℚ
  refinement : ℚ
  dist_min : ℚ
  dist_max : ℚ
  verbosity : ℚ
  delta_L : ℚ
deriving DecidableEq

/-- Default parameter values of `solve_elasticity_devoir` (lines 23-34). -/
def defaultParams : Params :=
  { nu := 4/10, E := 3000 * 10^6, load := 0, Lx := 10/100, Ly := 45/200
    Lcrack := 10/1000, lc := 9/1000, refinement := 10, dist_min := 3/100
    dist_max := 5/100, verbosity := 10, delta_L := 700 * (1/10^6) }

/-- Kinds of ufl expressions appearing in the source: scalar expressions,
vector (displacement) expressions, rank-2 tensor expressions, and integral
forms. -/
inductive Kind where
  | scalar
  | vec
  | tensor
  | form
deriving DecidableEq

/-- Symbolic ufl expressions, indexed by kind.  Constructors correspond to the
ufl operations used in `elastic_solver.py`:  `trial` and `test` are
`ufl.TrialFunction(V)` / `ufl.TestFunction(V)`, `uharg` stands for the solved
field `uh`, `constVec a b` is `fem.Constant(msh, ScalarType((a, b)))`,
`identity n` is `ufl.Identity(n)`, `smul` is multiplication of a tensor by a
Python float, `smulE` multiplication of a tensor by a scalar expression,
`intDx` / `intDs` are `expr * dx` and `expr * ds(tag)`. -/
inductive Ufl : Kind → Type where
  | const (q : ℚ) : Ufl .scalar
  | mul (s t : Ufl .scalar) : Ufl .scalar
  | tr (t : Ufl .tensor) : Ufl .scalar
  | inner (s t : Ufl .tensor) : Ufl .scalar
  | dot (v w : Ufl .vec) : Ufl .scalar
  | trial : Ufl .vec
  | test : Ufl .vec
  | uharg : Ufl .vec
  | constVec (a b : ℚ) : Ufl .vec
  | grad (v : Ufl .vec) : Ufl .tensor
  | sym (t : Ufl .tensor) : Ufl .tensor
  | identity (n : ℕ) : Ufl .tensor
  | smul (c : ℚ) (t : Ufl .tensor) : Ufl .tensor
  | smulE (s : Ufl .scalar) (t : Ufl .tensor) : Ufl .tensor
  | addT (s t : Ufl .tensor) : Ufl .tensor
  | intDx (integrand : Ufl .scalar) : Ufl .form
  | intDs (tag : ℕ) (integrand : Ufl .scalar) : Ufl .form
  | addF (f g : Ufl .form) : Ufl .form
  | subF (f g : Ufl .form) : Ufl .form
  | smulF (c : ℚ) (f : Ufl .form) : Ufl .form
deriving DecidableEq

/-- Shear modulus, line 84: `mu = E / (2.0 * (1.0 + nu))`. -/
def muOf (p : Params) : ℚ := p.E / (2 * (1 + p.nu))

/-- First Lamé parameter, line 85:
`lmbda = E * nu / ((1.0 + nu) * (1.0 - 2.0 * nu))`. -/
def lmbdaOf (p : Params) : ℚ := p.E * p.nu / ((1 + p.nu) * (1 - 2 * p.nu))

/-- Strain, lines 90-92: `eps(u) = ufl.sym(ufl.grad(u))`. -/
def eps (u : Ufl .vec) : Ufl .tensor := .sym (.grad u)

/-- Stress, lines 94-96:
`sigma(eps) = 2.0 * mu * eps + lmbda * ufl.tr(eps) * ufl.Identity(2)`.
The factor `2.0 * mu` is evaluated in Python float arithmetic before scaling
the tensor, while `lmbda * ufl.tr(eps)` is a ufl scalar expression. -/
def sigma (p : Params) (e : Ufl .tensor) : Ufl .tensor :=
  .addT (.smul (2 * muOf p) e) (.smulE (.mul (.const (lmbdaOf p)) (.tr e)) (.identity 2))

/-- Integrand of the bilinear form: `ufl.inner(sigma(eps(u)), eps(v))`. -/
def aIntegrand (p : Params) (u v : Ufl .vec) : Ufl .scalar :=
  .inner (sigma p (eps u)) (eps v)

/-- The bilinear form of the weak formulation, lines 98-100:
`a(u, v) = ufl.inner(sigma(eps(u)), eps(v)) * dx`. -/
def aForm (p : Params) (u v : Ufl .vec) : Ufl .form :=
  .intDx (aIntegrand p u v)

/-- The linear form of the weak formulation, lines 102-105:
`L(v) = ufl.dot(b, v) * dx + ufl.dot(f, v) * ds(1)` with
`b = fem.Constant(msh, ScalarType((0, 0)))` and
`f = fem.Constant(msh, ScalarType((0, load)))`. -/
def lForm (p : Params) (v : Ufl .vec) : Ufl .form :=
  .addF (.intDx (.dot (.constVec 0 0) v)) (.intDs 1 (.dot (.constVec 0 p.load) v))

/-- The form whose assembly yields the returned energy, line 117:
`0.5 * a(uh, uh) - L(uh)`. -/
def energyForm (p : Params) : Ufl .form :=
  .subF (.smulF (1/2) (aForm p .uharg .uharg)) (lForm p .uharg)

/-- Modelled from the spec's words for claim C5 only: the bilinear form
written out as the spec states it, `a(u, v) =` integral over the domain of
`inner(2 mu sym(grad(u)) + lmbda tr(sym(grad(u))) I, sym(grad(v)))` with
`mu = E / (2 (1 + nu))` and `lmbda = E nu / ((1 + nu)(1 - 2 nu))`. -/
def aFormSpec (p : Params) (u v : Ufl .vec) : Ufl .form :=
  .intDx (.inner
    (.addT (.smul (2 * (p.E / (2 * (1 + p.nu)))) (.sym (.grad u)))
      (.smulE (.mul (.const (p.E * p.nu / ((1 + p.nu) * (1 - 2 * p.nu))))
        (.tr (.sym (.grad u)))) (.identity 2)))
    (.sym (.grad v)))

/-- Modelled from the spec's words for claim C5 only: the linear form as the
spec states it, `L(v) =` integral of `(0,0) . v` over the domain plus integral
of `(0, load) . v` over the top boundary tagged 1. -/
def lFormSpec (p : Params) (v : Ufl .vec) : Ufl .form :=
  .addF (.intDx (.dot (.constVec 0 0) v)) (.intDs 1 (.dot (.constVec 0 p.load) v))

/-- Geometric boundary marker closures passed to
`mesh.locate_entities_boundary`.  `bottomNoCrack Lcrack` is the closure
`bottom_no_crack` (lines 48-49 resp. 148-149):
`np.logical_and(np.isclose(x[1], 0.0), x[0] > Lcrack)`;  `top Ly` is the
closure `top` (lines 51-52 resp. 151-152): `np.isclose(x[1], Ly)`.  The
anonymous lambda of line 72 / 172 is the same predicate as `top Ly`. -/
inductive BoundaryMarker where
  | bottomNoCrack (Lcrack : ℚ)
  | top (Ly : ℚ)
deriving DecidableEq

/-- Pointwise meaning of a boundary marker at a point `(x₀, x₁)`, with
`np.isclose` modelled as exact equality. -/
def BoundaryMarker.holds : BoundaryMarker → ℚ × ℚ → Prop
  | .bottomNoCrack Lcrack, x => x.2 = 0 ∧ Lcrack < x.1
  | .top Ly, x => x.2 = Ly

instance (m : BoundaryMarker) (x : ℚ × ℚ) : Decidable (m.holds x) := by
  cases m <;> simp only [BoundaryMarker.holds] <;> infer_instance

/-- Dimension argument of an entity-location call: the drivers pass either
`msh.topology.dim - 1` (lines 54, 60) or the literal `1` (line 71). -/
inductive DimArg where
  | topMinusOne
  | lit (n : ℕ)
deriving DecidableEq

/-- A set of boundary degrees of freedom as produced by
`fem.locate_dofs_topological(V.sub(sub), dim, facets(marker))`. -/
structure DofSet where
  sub : ℕ
  dim : DimArg
  marker : BoundaryMarker
deriving DecidableEq

/-- A Dirichlet boundary condition object
`fem.dirichletbc(ScalarType(value), dofs, V.sub(sub))`. -/
structure BC where
  value : ℚ
  dofs : DofSet
  sub : ℕ
deriving DecidableEq

/-- Arguments of the external mesh generator `generate_mesh_with_crack`
(lines 36-45 resp. 136-145). -/
structure MeshArgs where
  Lcrack : ℚ
  Lx : ℚ
  Ly : ℚ
  lc : ℚ
  refinement : ℚ
  dist_min : ℚ
  dist_max : ℚ
  verbosity : ℚ
deriving DecidableEq

/-- The mesh-generator arguments both drivers pass (they forward their own
parameters unchanged). -/
def meshArgsOf (p : Params) : MeshArgs :=
  { Lcrack := p.Lcrack, Lx := p.Lx, Ly := p.Ly, lc := p.lc
    refinement := p.refinement, dist_min := p.dist_min
    dist_max := p.dist_max, verbosity := p.verbosity }

/-- One external-library call issued by a driver.  Constructors are in
one-to-one correspondence with the call sites of `elastic_solver.py`;
`assembleScalar f` models `fem.assemble_scalar(fem.form(f))`, `setName s`
models the attribute assignment `uh.name = s`, and `printEnergy Lcrack`
models the `print` of line 118 / 218 (the printed text depends on `Lcrack`
and on the computed energy). -/
inductive Call where
  | generateMeshWithCrack (args : MeshArgs)
  | functionspace (family : String) (degree : ℕ) (shape : ℕ)
  | locateEntitiesBoundary (dim : DimArg) (marker : BoundaryMarker)
  | locateDofsTopological (sub : ℕ) (dim : DimArg) (marker : BoundaryMarker)
  | dirichletbc (bc : BC)
  | measureDx
  | meshtags (dim : ℕ) (marker : BoundaryMarker) (tag : ℕ)
  | measureDs
  | trialFunction
  | testFunction
  | linearProblem (aF : Ufl .form) (lF : Ufl .form) (bcs : List BC)
      (opts : List (String × String))
  | solveCall
  | setName (s : String)
  | assembleScalar (f : Ufl .form)
  | printEnergy (Lcrack : ℚ)

/-- The bottom boundary condition `bc_bottom` (line 67 resp. 167):
`fem.dirichletbc(ScalarType(0), bottom_no_crack_dofs_y, V.sub(1))`. -/
def bcBottom (p : Params) : BC :=
  { value := 0
    dofs := { sub := 1, dim := .topMinusOne, marker := .bottomNoCrack p.Lcrack }
    sub := 1 }

/-- The top boundary condition `bc_top` (line 68 resp. 168):
`fem.dirichletbc(ScalarType(delta_L), top_dofs_y, V.sub(1))`. -/
def bcTop (p : Params) : BC :=
  { value := p.delta_L
    dofs := { sub := 1, dim := .topMinusOne, marker := .top p.Ly }
    sub := 1 }

/-- The PETSc options both drivers pass to `fem.petsc.LinearProblem`
(line 111 resp. 211). -/
def lupOpts : List (String × String) :=
  [("ksp_type", "preonly"), ("pc_type", "lu")]

/-- The ordered list of external-library calls issued by
`solve_elasticity_devoir` (lines 36-119), transcribed line by line.  The mesh
is 2-dimensional, so `msh.topology.dim - 1` is the `topMinusOne` dimension
argument.  `bcs = [bc_bottom, bc_top]` (line 69) is the argument of the
`linearProblem` call. -/
def devoirTrace (p : Params) : List Call :=
  [ .generateMeshWithCrack (meshArgsOf p)
  , .functionspace "Lagrange" 1 2
  , .locateEntitiesBoundary .topMinusOne (.bottomNoCrack p.Lcrack)
  , .locateDofsTopological 1 .topMinusOne (.bottomNoCrack p.Lcrack)
  , .locateEntitiesBoundary .topMinusOne (.top p.Ly)
  , .locateDofsTopological 1 .topMinusOne (.top p.Ly)
  , .dirichletbc (bcBottom p)
  , .dirichletbc (bcTop p)
  , .measureDx
  , .locateEntitiesBoundary (.lit 1) (.top p.Ly)
  , .meshtags 1 (.top p.Ly) 1
  , .measureDs
  , .trialFunction
  , .testFunction
  , .linearProblem (aForm p .trial .test) (lForm p .test) [bcBottom p, bcTop p] lupOpts
  , .solveCall
  , .setName "displacement"
  , .assembleScalar (energyForm p)
  , .printEnergy p.Lcrack ]

/-- The ordered list of external-library calls issued by
`solve_elasticity_devoir_force` (lines 136-219), transcribed line by line.
The single textual difference from `solve_elasticity_devoir` is line 169:
`bcs = [bc_bottom]`, reflected in the `linearProblem` call. -/
def forceTrace (p : Params) : List Call :=
  [ .generateMeshWithCrack (meshArgsOf p)
  , .functionspace "Lagrange" 1 2
  , .locateEntitiesBoundary .topMinusOne (.bottomNoCrack p.Lcrack)
  , .locateDofsTopological 1 .topMinusOne (.bottomNoCrack p.Lcrack)
  , .locateEntitiesBoundary .topMinusOne (.top p.Ly)
  , .locateDofsTopological 1 .topMinusOne (.top p.Ly)
  , .dirichletbc (bcBottom p)
  , .dirichletbc (bcTop p)
  , .measureDx
  , .locateEntitiesBoundary (.lit 1) (.top p.Ly)
  , .meshtags 1 (.top p.Ly) 1
  , .measureDs
  , .trialFunction
  , .testFunction
  , .linearProblem (aForm p .trial .test) (lForm p .test) [bcBottom p] lupOpts
  , .solveCall
  , .setName "displacement"
  , .assembleScalar (energyForm p)
  , .printEnergy p.Lcrack ]

/-- The linear problem a driver hands to `fem.petsc.LinearProblem`: bilinear
form, linear form, Dirichlet conditions, PETSc options, and the mesh it lives
on.  The solved field `uh` is the (external) solution of this problem. -/
structure ProblemSpec where
  aF : Ufl .form
  lF : Ufl .form
  bcs : List BC
  opts : List (String × String)
  onMesh : MeshArgs
deriving DecidableEq

/-- The symbolic value of the triple `(uh, energy, sigma_ufl)` a driver
returns.  `uh` is the solution of `problem` (renamed to `uhName`);  `energy`
is `energyF` assembled with `uharg` bound to that solution;  `sigmaExpr` is
the ufl expression `sigma(eps(uh))`. -/
structure SimResult where
  problem : ProblemSpec
  uhName : String
  energyF : Ufl .form
  sigmaExpr : Ufl .tensor
deriving DecidableEq

/-- The linear problem of `solve_elasticity_devoir` (lines 107-112):
`LinearProblem(a(u, v), L(v), bcs=[bc_bottom, bc_top], petsc_options=...)`. -/
def devoirProblem (p : Params) : ProblemSpec :=
  { aF := aForm p .trial .test, lF := lForm p .test
    bcs := [bcBottom p, bcTop p], opts := lupOpts, onMesh := meshArgsOf p }

/-- The linear problem of `solve_elasticity_devoir_force` (lines 207-212):
identical except `bcs=[bc_bottom]` (line 169). -/
def forceProblem (p : Params) : ProblemSpec :=
  { aF := aForm p .trial .test, lF := lForm p .test
    bcs := [bcBottom p], opts := lupOpts, onMesh := meshArgsOf p }

/-- The triple returned by `solve_elasticity_devoir` (line 120). -/
def devoirResult (p : Params) : SimResult :=
  { problem := devoirProblem p, uhName := "displacement"
    energyF := energyForm p, sigmaExpr := sigma p (eps .uharg) }

/-- The triple returned by `solve_elasticity_devoir_force` (line 220). -/
def forceResult (p : Params) : SimResult :=
  { problem := forceProblem p, uhName := "displacement"
    energyF := energyForm p, sigmaExpr := sigma p (eps .uharg) }

/-- Erase the `bcs` argument of a `linearProblem` call, leaving every other
call and every other argument intact.  Used to state that the two drivers
differ only in that argument. -/
def Call.eraseBcs : Call → Call
  | .linearProblem aF lF _ opts => .linearProblem aF lF [] opts
  | c => c

/-- The `bcs` argument of a `linearProblem` call, `none` on any other call. -/
def Call.bcsOf : Call → Option (List BC)
  | .linearProblem _ _ bcs _ => some bcs
  | _ => none

/-- The `petsc_options` argument of a `linearProblem` call, `none` on any
other call. -/
def Call.optsOf : Call → Option (List (String × String))
  | .linearProblem _ _ _ opts => some opts
  | _ => none

/-- The six phases of the spec's call sequence: (a) mesh generation,
(b) function space, (c) boundary dof location and boundary conditions,
(d) form definition (measures, facet tags for the `ds` measure, trial/test
functions, the `LinearProblem` object), (e) the linear solve (and naming the
solution), (f) the energy functional (assembly and report). -/
inductive Phase where
  | meshGen
  | space
  | dofs
  | forms
  | linSolve
  | energy
deriving DecidableEq

/-- Numeric position of a phase in the spec's (a)-(f) order. -/
def Phase.idx : Phase → ℕ
  | .meshGen => 0
  | .space => 1
  | .dofs => 2
  | .forms => 3
  | .linSolve => 4
  | .energy => 5

/-- Phase of each external call.  The entity-location call with the literal
dimension `1` (line 71 / 171) produces the facet tags of the `ds` measure and
so belongs to form definition; the ones with `msh.topology.dim - 1` feed the
boundary-dof location. -/
def Call.phase : Call → Phase
  | .generateMeshWithCrack _ => .meshGen
  | .functionspace .. => .space
  | .locateEntitiesBoundary .topMinusOne _ => .dofs
  | .locateEntitiesBoundary (.lit _) _ => .forms
  | .locateDofsTopological .. => .dofs
  | .dirichletbc _ => .dofs
  | .measureDx => .forms
  | .meshtags .. => .forms
  | .measureDs => .forms
  | .trialFunction => .forms
  | .testFunction => .forms
  | .linearProblem .. => .forms
  | .solveCall => .linSolve
  | .setName _ => .linSolve
  | .assembleScalar _ => .energy
  | .printEnergy _ => .energy

/-- The phase sequence common to both drivers. -/
def tracePhases : List Phase :=
  [ .meshGen, .space
  , .dofs, .dofs, .dofs, .dofs, .dofs, .dofs
  , .forms, .forms, .forms, .forms, .forms, .forms, .forms
  , .linSolve, .linSolve
  , .energy, .energy ]

/-- Run a list of external calls against an environment `ext` that assigns
each call an outcome (success, or an error raised by the external library):
the calls run in order and the first raised error aborts the run.  The
drivers install no exception handler, so this is the whole control flow. -/
def runCalls (ext : Call → Except String Unit) : List Call → Except String Unit
  | [] => .ok ()
  | c :: cs =>
    match ext c with
    | .error e => .error e
    | .ok () => runCalls ext cs

/-- Outcome of `solve_elasticity_devoir` under external behaviour `ext`:
either the symbolic result triple, or the first external error unchanged. -/
def devoirRun (ext : Call → Except String Unit) (p : Params) :
    Except String SimResult :=
  match runCalls ext (devoirTrace p) with
  | .error e => .error e
  | .ok () => .ok (devoirResult p)

/-- Outcome of `solve_elasticity_devoir_force` under external behaviour
`ext`. -/
def forceRun (ext : Call → Except String Unit) (p : Params) :
    Except String SimResult :=
  match runCalls ext (forceTrace p) with
  | .error e => .error e
  | .ok () => .ok (forceResult p)

/-- The module-level state of `elastic_solver.py`: its global bindings (the
imports and the two function objects).  Neither driver assigns to any
module-level name, so a driver call maps a state to itself. -/
structure ModuleState where
  globalBindings : List (String × String)
deriving DecidableEq

/-- `solve_elasticity_devoir` as a state transformer over the module state:
it reads its scalar arguments by value, issues its calls, returns its triple,
and leaves the module state unchanged (its body contains no `global`
statement and no assignment to a module-level name). -/
def devoirStep (p : Params) (s : ModuleState) :
    (List Call × SimResult) × ModuleState :=
  ((devoirTrace p, devoirResult p), s)

/-- `solve_elasticity_devoir_force` as a state transformer over the module
state. -/
def forceStep (p : Params) (s : ModuleState) :
    (List Call × SimResult) × ModuleState :=
  ((forceTrace p, forceResult p), s)

/-- Semantic domain of each ufl kind at a point of the 2D domain: scalars are
rationals, vectors are pairs, tensors are 2x2 matrices.  Integral forms have
no pointwise value (they are integrated by the external assembler), so their
domain is trivial. -/
@[reducible] def Val : Kind → Type
  | .scalar => ℚ
  | .vec => Fin 2 → ℚ
  | .tensor => Matrix (Fin 2) (Fin 2) ℚ
  | .form => Unit

/-- Pointwise data of the symbolic fields at one point of the domain: the
value and the gradient (Jacobian) of the trial function, the test function
and the solved field. -/
structure PtEnv where
  trialVal : Fin 2 → ℚ
  testVal : Fin 2 → ℚ
  uhVal : Fin 2 → ℚ
  trialGrad : Matrix (Fin 2) (Fin 2) ℚ
  testGrad : Matrix (Fin 2) (Fin 2) ℚ
  uhGrad : Matrix (Fin 2) (Fin 2) ℚ

/-- Gradient of a vector expression: the environment supplies the gradient of
each symbolic field, and a `fem.Constant` field has gradient zero. -/
def gradSem (env : PtEnv) : Ufl .vec → Matrix (Fin 2) (Fin 2) ℚ
  | .trial => env.trialGrad
  | .test => env.testGrad
  | .uharg => env.uhGrad
  | .constVec _ _ => 0

/-- Frobenius inner product of 2x2 matrices: the meaning of `ufl.inner` on
rank-2 tensors. -/
def matInner (A B : Matrix (Fin 2) (Fin 2) ℚ) : ℚ :=
  ∑ i, ∑ j, A i j * B i j

/-- Symmetric part of a matrix: the meaning of `ufl.sym`. -/
def matSym (M : Matrix (Fin 2) (Fin 2) ℚ) : Matrix (Fin 2) (Fin 2) ℚ :=
  (1/2 : ℚ) • (M + M.transpose)

/-- The plane-strain constitutive law on matrices: the meaning of the ufl
expression built by `sigma`. -/
def matSigma (mu lm : ℚ) (e : Matrix (Fin 2) (Fin 2) ℚ) :
    Matrix (Fin 2) (Fin 2) ℚ :=
  (2 * mu) • e + (lm * Matrix.trace e) • (1 : Matrix (Fin 2) (Fin 2) ℚ)

/-- Pointwise evaluation of ufl expressions (forms evaluate trivially: their
integration is external). -/
def eval (env : PtEnv) : {k : Kind} → Ufl k → Val k
  | _, .const q => q
  | _, .mul s t => eval env s * eval env t
  | _, .tr t => Matrix.trace (eval env t)
  | _, .inner s t => matInner (eval env s) (eval env t)
  | _, .dot v w => ∑ i, eval env v i * eval env w i
  | _, .trial => env.trialVal
  | _, .test => env.testVal
  | _, .uharg => env.uhVal
  | _, .constVec a b => ![a, b]
  | _, .grad v => gradSem env v
  | _, .sym t => matSym (eval env t)
  | _, .identity _ => (1 : Matrix (Fin 2) (Fin 2) ℚ)
  | _, .smul c t => c • eval env t
  | _, .smulE s t => eval env s • eval env t
  | _, .addT s t => eval env s + eval env t
  | _, .intDx _ => ()
  | _, .intDs _ _ => ()
  | _, .addF _ _ => ()
  | _, .subF _ _ => ()
  | _, .smulF _ _ => ()

/-- Helper for claim C10: the elasticity integrand on matrices is symmetric
in the two gradient arguments. -/
theorem matSigma_inner_comm (mu lm : ℚ) (A B : Matrix (Fin 2) (Fin 2) ℚ) :
    matInner (matSigma mu lm (matSym A)) (matSym B)
      = matInner (matSigma mu lm (matSym B)) (matSym A) := by
  simp only [matInner, matSigma, matSym, Matrix.trace, Matrix.diag,
    Fin.sum_univ_two, Matrix.add_apply, Matrix.smul_apply, Matrix.one_apply,
    Matrix.transpose_apply, smul_eq_mul, Fin.isValue, ite_true, ite_false,
    if_pos rfl, mul_ite, mul_one, mul_zero]
  norm_num
  ring

/-- Helper: a run of a call list fails with error `e` only if some call in
the list raised exactly `e` (the interpreter adds no error of its own). -/
theorem runCalls_error_mem (ext : Call → Except String Unit) (cs : List Call)
    (e : String) (h : runCalls ext cs = .error e) :
    ∃ c ∈ cs, ext c = .error e := by
  induction cs with
  | nil => simp [runCalls] at h
  | cons c cs ih =>
    rw [runCalls] at h
    cases hc : ext c with
    | error f =>
      rw [hc] at h
      simp only [Except.error.injEq] at h
      exact ⟨c, List.mem_cons_self c cs, by rw [hc, h]⟩
    | ok u =>
      cases u
      rw [hc] at h
      obtain ⟨d, hd, he⟩ := ih h
      exact ⟨d, List.mem_cons_of_mem c hd, he⟩

/-- C1: the two driver functions issue the same sequence of external-library
calls, with the same arguments at every step, and differ only in the list of
Dirichlet conditions passed to `fem.petsc.LinearProblem`:
`solve_elasticity_devoir` passes `[bc_bottom, bc_top]` while
`solve_elasticity_devoir_force` passes `[bc_bottom]`. -/
theorem claim_C1 (p : Params) :
    (devoirTrace p).map Call.eraseBcs = (forceTrace p).map Call.eraseBcs
      ∧ (devoirTrace p).filterMap Call.bcsOf = [[bcBottom p, bcTop p]]
      ∧ (forceTrace p).filterMap Call.bcsOf = [[bcBottom p]] :=
  ⟨rfl, rfl, rfl⟩

/-- C2: in `solve_elasticity_devoir_force` the parameter `delta_L` has no
effect on the returned triple `(uh, energy, sigma_ufl)`: two calls that
differ only in `delta_L` return identical results, because `bc_top` (the only
use of `delta_L`) is never included in the `bcs` list handed to the linear
problem. -/
theorem claim_C2 (p : Params) (d₁ d₂ : ℚ) :
    forceResult { p with delta_L := d₁ } = forceResult { p with delta_L := d₂ } :=
  rfl

/-- C3: in both drivers the returned scalar energy is the assembled value of
`0.5 * a(uh, uh) - L(uh)` where `uh` is the solution returned by the linear
solve: on any successful run, the result's energy form is exactly that form,
and the problem whose solution `uh` is bound to is the one passed to the
`linearProblem` call of the trace. -/
theorem claim_C3 (ext : Call → Except String Unit) (p : Params)
    (r₁ r₂ : SimResult) (h₁ : devoirRun ext p = .ok r₁)
    (h₂ : forceRun ext p = .ok r₂) :
    (r₁.energyF = .subF (.smulF (1/2) (aForm p .uharg .uharg)) (lForm p .uharg)
      ∧ .linearProblem r₁.problem.aF r₁.problem.lF r₁.problem.bcs r₁.problem.opts
          ∈ devoirTrace p)
    ∧ (r₂.energyF = .subF (.smulF (1/2) (aForm p .uharg .uharg)) (lForm p .uharg)
      ∧ .linearProblem r₂.problem.aF r₂.problem.lF r₂.problem.bcs r₂.problem.opts
          ∈ forceTrace p) := by
  have e₁ : r₁ = devoirResult p := by
    unfold devoirRun at h₁
    split at h₁
    · exact absurd h₁ (by simp)
    · simpa using h₁.symm
  have e₂ : r₂ = forceResult p := by
    unfold forceRun at h₂
    split at h₂
    · exact absurd h₂ (by simp)
    · simpa using h₂.symm
  subst e₁; subst e₂
  refine ⟨⟨rfl, ?_⟩, ⟨rfl, ?_⟩⟩
  · simp [devoirTrace, devoirResult, devoirProblem]
  · simp [forceTrace, forceResult, forceProblem]

/-- Witness for C3 at the default parameters, under an external environment
in which every call succeeds. -/
theorem claim_C3_witness :
    ((devoirResult defaultParams).energyF
        = .subF (.smulF (1/2) (aForm defaultParams .uharg .uharg))
            (lForm defaultParams .uharg)
      ∧ .linearProblem (devoirResult defaultParams).problem.aF
          (devoirResult defaultParams).problem.lF
          (devoirResult defaultParams).problem.bcs
          (devoirResult defaultParams).problem.opts ∈ devoirTrace defaultParams)
    ∧ ((forceResult defaultParams).energyF
        = .subF (.smulF (1/2) (aForm defaultParams .uharg .uharg))
            (lForm defaultParams .uharg)
      ∧ .linearProblem (forceResult defaultParams).problem.aF
          (forceResult defaultParams).problem.lF
          (forceResult defaultParams).problem.bcs
          (forceResult defaultParams).problem.opts ∈ forceTrace defaultParams) :=
  claim_C3 (fun _ => .ok ()) defaultParams (devoirResult defaultParams)
    (forceResult defaultParams) rfl rfl

/-- C4: the Dirichlet conditions of `solve_elasticity_devoir` prescribe
displacement values on parts of the boundary: the component-1 (y) value is 0
on the dofs located on facets where `x₁ = 0 ∧ x₀ > Lcrack`, and `delta_L` on
the dofs located on facets where `x₁ = Ly`. -/
theorem claim_C4 (p : Params) :
    (devoirTrace p).filterMap Call.bcsOf
        = [[ { value := 0
               dofs := { sub := 1, dim := .topMinusOne
                         marker := .bottomNoCrack p.Lcrack }
               sub := 1 }
           , { value := p.delta_L
               dofs := { sub := 1, dim := .topMinusOne, marker := .top p.Ly }
               sub := 1 } ]]
      ∧ (∀ x : ℚ × ℚ,
          (BoundaryMarker.bottomNoCrack p.Lcrack).holds x
            ↔ x.2 = 0 ∧ p.Lcrack < x.1)
      ∧ (∀ x : ℚ × ℚ, (BoundaryMarker.top p.Ly).holds x ↔ x.2 = p.Ly) :=
  ⟨rfl, fun _ => Iff.rfl, fun _ => Iff.rfl⟩

/-- C5: the forms both drivers assemble are those of linear elasticity as the
spec writes them out: with `mu = E / (2 (1 + nu))` and
`lmbda = E nu / ((1 + nu)(1 - 2 nu))`, the bilinear form is the domain
integral of `inner(2 mu sym(grad(u)) + lmbda tr(sym(grad(u))) I, sym(grad(v)))`
and the linear form integrates `(0,0) . v` over the domain and `(0, load) . v`
over the top boundary tagged 1.  (Both drivers build `a` and `L` by the same
code, so the source-side forms are shared definitions.) -/
theorem claim_C5 (p : Params) (u v : Ufl .vec) :
    aForm p u v = aFormSpec p u v ∧ lForm p v = lFormSpec p v :=
  ⟨rfl, rfl⟩

/-- C6: both drivers configure the linear problem with PETSc options
`ksp_type = preonly` and `pc_type = lu` — a single direct LU factorization
and no iterative Krylov method. -/
theorem claim_C6 (p : Params) :
    (devoirTrace p).filterMap Call.optsOf
        = [[("ksp_type", "preonly"), ("pc_type", "lu")]]
      ∧ (forceTrace p).filterMap Call.optsOf
        = [[("ksp_type", "preonly"), ("pc_type", "lu")]] :=
  ⟨rfl, rfl⟩

/-- C7: each driver's call sequence realises the spec's phases in order —
(a) mesh generation, (b) function space, (c) boundary-dof location and
boundary conditions, (d) form definition, (e) linear solve, (f) energy
functional: the phase projection of both traces is the same list, that list
is monotone in the (a)-(f) order, and every phase occurs in it. -/
theorem claim_C7 (p : Params) :
    (devoirTrace p).map Call.phase = tracePhases
      ∧ (forceTrace p).map Call.phase = tracePhases
      ∧ List.Chain' (fun a b => Phase.idx a ≤ Phase.idx b) tracePhases
      ∧ (∀ ph : Phase, ph ∈ tracePhases) := by
  refine ⟨rfl, rfl, ?_, fun ph => ?_⟩
  · simp [tracePhases, List.chain'_cons, Phase.idx]
  · cases ph <;> simp [tracePhases]

/-- C8: neither driver catches exceptions or raises its own: under any
external behaviour, a failed run returns, unchanged, an error raised by one
of its external calls, and if every call succeeds the driver returns its
result. -/
theorem claim_C8 (ext : Call → Except String Unit) (p : Params) (e : String) :
    (devoirRun ext p = .error e → ∃ c ∈ devoirTrace p, ext c = .error e)
      ∧ (forceRun ext p = .error e → ∃ c ∈ forceTrace p, ext c = .error e)
      ∧ (runCalls ext (devoirTrace p) = .ok ()
          → devoirRun ext p = .ok (devoirResult p))
      ∧ (runCalls ext (forceTrace p) = .ok ()
          → forceRun ext p = .ok (forceResult p)) := by
  refine ⟨?_, ?_, ?_, ?_⟩
  · intro h
    unfold devoirRun at h
    split at h
    · next f heq =>
      simp only [Except.error.injEq] at h
      exact runCalls_error_mem ext (devoirTrace p) e (by rw [heq, h])
    · exact absurd h (by simp)
  · intro h
    unfold forceRun at h
    split at h
    · next f heq =>
      simp only [Except.error.injEq] at h
      exact runCalls_error_mem ext (forceTrace p) e (by rw [heq, h])
    · exact absurd h (by simp)
  · intro h
    unfold devoirRun
    rw [h]
  · intro h
    unfold forceRun
    rw [h]

/-- External behaviour in which the mesh generator raises and every other
call succeeds; used to witness C8. -/
def extFailMesh : Call → Except String Unit
  | .generateMeshWithCrack _ => .error "gmsh failed"
  | _ => .ok ()

/-- Witness for C8: a failing mesh generation surfaces its error unchanged
from `solve_elasticity_devoir`, and an all-successful environment makes
`solve_elasticity_devoir_force` return its result. -/
theorem claim_C8_witness :
    (∃ c ∈ devoirTrace defaultParams, extFailMesh c = .error "gmsh failed")
      ∧ forceRun (fun _ => .ok ()) defaultParams
          = .ok (forceResult defaultParams) :=
  ⟨(claim_C8 extFailMesh defaultParams "gmsh failed").1 rfl,
   (claim_C8 (fun _ => .ok ()) defaultParams "").2.2.2 rfl⟩

/-- C9: both drivers take scalar parameters by value and keep no persistent
state: as state transformers over the module state they leave the state
unchanged, and their output (call trace and result triple) does not depend on
the incoming state, so two successive calls with the same arguments observe
the same initial state and return the same output. -/
theorem claim_C9 (p : Params) (s t : ModuleState) :
    (devoirStep p s).2 = s ∧ (forceStep p s).2 = s
      ∧ (devoirStep p s).1 = (devoirStep p t).1
      ∧ (forceStep p s).1 = (forceStep p t).1 :=
  ⟨rfl, rfl, rfl, rfl⟩

/-- C10: the bilinear form defined in both drivers is symmetric: its
integrand `inner(sigma(eps(u)), eps(v))` has, at every point and for all
fields `u` and `v`, the same value as with `u` and `v` exchanged (so the
`dx`-integrals `a(u, v)` and `a(v, u)` assemble to equal values). -/
theorem claim_C10 (p : Params) (env : PtEnv) (u v : Ufl .vec) :
    eval env (aIntegrand p u v) = eval env (aIntegrand p v u)
      ∧ aForm p u v = .intDx (aIntegrand p u v)
      ∧ aForm p v u = .intDx (aIntegrand p v u) :=
  ⟨matSigma_inner_comm (muOf p) (lmbdaOf p) (gradSem env u) (gradSem env v),
   rfl, rfl⟩
